import Mathlib

/-!
Verification of the starlite repository's request/response resolution pipeline
and session middleware against its natural-language specification.

The definitions below are a shallow embedding of:
  * src/starlite/handlers/http_handlers.py (layered configuration resolution,
    HTTP method normalization, default status codes, registration-time
    validation, response-handler dispatch), and
  * src/starlite/middleware/session/base.py (the session middleware's
    send wrapper and ASGI call).

Supporting data types whose defining modules are not part of src/
(`Cookie`, `ResponseHeader`, the ownership chain of `BaseRouteHandler`,
`REDIRECT_STATUS_CODES`, the exception taxonomy) are modelled from the
spec, as documented on each such definition.
-/

/-- Modelled from the spec: `Cookie` (starlite/datastructures, not in src/) is
"name+value+documentation-only flag" and the resolved set of cookies is
"keyed by name", so cookie identity in a set is its `key`. -/
structure Cookie where
  key : String
  value : String
  documentation_only : Bool
deriving DecidableEq, Repr

/-- Modelled from the spec: `ResponseHeader` (starlite/datastructures, not in
src/) is "name+value+documentation-only flag", keyed by name. -/
structure ResponseHeader where
  name : String
  value : String
  documentation_only : Bool
deriving DecidableEq, Repr

/-- Modelled from the spec: a `cache_control`/`etag` dedicated field on a
layer, carrying a rendered header value (`to_header()`) and a
documentation-only flag (the `Header` models are not in src/). -/
structure HeaderModel where
  header_value : String
  documentation_only : Bool
deriving DecidableEq, Repr

/-- Modelled from the spec: one layer of the ownership chain
("handler → controller → router → app"); each layer "independently may
define response headers, response cookies, hooks" plus the dedicated
`cache_control`/`etag` fields and a response-class override read by
`resolve_response_class`.  Hook callables and response classes are opaque;
they are represented by `Nat` identity tokens wrapped in `Option`
(`none` = the layer does not define the value). -/
structure Layer where
  response_headers : Option (List ResponseHeader)
  response_cookies : Option (List Cookie)
  before_request : Option Nat
  after_request : Option Nat
  after_response : Option Nat
  cache_control : Option HeaderModel
  etag : Option HeaderModel
  response_class : Option Nat
deriving DecidableEq, Repr

/-- Left-biased choice on optional cookies; mirrors "first hit wins" when
reading a Python set/dict through lookups. -/
def oor {α : Type} (a b : Option α) : Option α :=
  match a with
  | some x => some x
  | none => b

/-- First cookie with the given key, i.e. the lookup a Python `set[Cookie]`
(equality keyed by cookie key) answers for that key. -/
def find_cookie (k : String) (s : List Cookie) : Option Cookie :=
  s.find? (fun c => c.key == k)

/-- `set.add` of Python for cookies keyed by `key`: an element equal to an
existing one (same key) is not added; otherwise it is appended. -/
def set_insert_cookie (s : List Cookie) (c : Cookie) : List Cookie :=
  if s.any (fun c2 => c2.key == c.key) then s else s ++ [c]

/-- The cookies a layer contributes: `layer.response_cookies` with a falsy
value (`None` or an empty sequence) contributing nothing. -/
def layer_cookies (l : Layer) : List Cookie :=
  l.response_cookies.getD []

/-- Embeds `HTTPRouteHandler.resolve_response_cookies`
(src/starlite/handlers/http_handlers.py lines 533-550): iterate
`reversed(self.ownership_layers)` (innermost layer first) and
`set.update` each layer's cookies into an accumulating set keyed by
cookie key.  `layers` is the ownership chain ordered outer→inner. -/
def resolve_response_cookies (layers : List Layer) : List Cookie :=
  layers.reverse.foldl (fun s l => (layer_cookies l).foldl set_insert_cookie s) []

/-- Modelled from the spec: the claimed contract for cookie resolution —
"merged set, duplicates by key collapse, later-scanned layer wins, scan
order outer→inner".  `overwrite_cookie` is last-write-wins by key. -/
def overwrite_cookie (s : List Cookie) (c : Cookie) : List Cookie :=
  s.filter (fun c2 => !(c2.key == c.key)) ++ [c]

/-- Modelled from the spec: cookie resolution as the claim states it — scan
the chain outer→inner, accumulate with last-write-wins by key. -/
def spec_resolve_response_cookies (layers : List Layer) : List Cookie :=
  layers.foldl (fun s l => (layer_cookies l).foldl overwrite_cookie s) []

/-- Python `dict.__setitem__` on a name-keyed header dict: replace the value
in place if the key exists, else append the pair. -/
def dict_insert_header (m : List (String × ResponseHeader)) (k : String) (v : ResponseHeader) :
    List (String × ResponseHeader) :=
  if m.any (fun p => p.1 == k) then m.map (fun p => if p.1 == k then (k, v) else p)
  else m ++ [(k, v)]

/-- One iteration of the layer loop in `resolve_response_headers`: merge the
layer's `response_headers` (inner overrides outer by name) and then the
synthesized `cache-control`/`etag` headers from its dedicated fields. -/
def layer_fold_headers (m : List (String × ResponseHeader)) (l : Layer) :
    List (String × ResponseHeader) :=
  let m1 := (l.response_headers.getD []).foldl (fun m h => dict_insert_header m h.name h) m
  let m2 := match l.cache_control with
    | some hm => dict_insert_header m1 "cache-control"
        ⟨"cache-control", hm.header_value, hm.documentation_only⟩
    | none => m1
  match l.etag with
  | some hm => dict_insert_header m2 "etag" ⟨"etag", hm.header_value, hm.documentation_only⟩
  | none => m2

/-- Embeds `HTTPRouteHandler.resolve_response_headers`
(src/starlite/handlers/http_handlers.py lines 504-531): walk the ownership
chain outer→inner updating a name-keyed dict, then take its values.
(The defensive `Mapping` branch, unreachable through the public API, is
not modelled.) -/
def resolve_response_headers (layers : List Layer) : List ResponseHeader :=
  (layers.foldl layer_fold_headers []).map Prod.snd

/-- Embeds `HTTPRouteHandler.resolve_before_request` lines 561-568: collect
the non-null `before_request` of each layer in chain order (outer→inner)
and take the last one, `None` when there is none. -/
def resolve_before_request (layers : List Layer) : Option Nat :=
  (layers.filterMap (fun l => l.before_request)).getLast?

/-- Embeds `HTTPRouteHandler.resolve_after_response` lines 580-588: same
rule as `resolve_before_request`, for the `after_response` hook. -/
def resolve_after_response (layers : List Layer) : Option Nat :=
  (layers.filterMap (fun l => l.after_response)).getLast?

/-- Embeds the `after_request` resolution inlined in
`resolve_response_handler` lines 602-608: last non-null `after_request`
in chain order. -/
def resolve_after_request (layers : List Layer) : Option Nat :=
  (layers.filterMap (fun l => l.after_request)).getLast?

/-- Embeds `HTTPRouteHandler.resolve_response_class` lines 491-502: walk the
chain innermost→outermost and return the first non-null `response_class`;
default `Response` is represented by the token `0`. -/
def resolve_response_class (layers : List Layer) : Nat :=
  (layers.reverse.findSome? (fun l => l.response_class)).getD 0

/-- Return-type declarations of handler functions, abstracted to the kinds
the source distinguishes: `Signature.empty`, `None`, the string `"None"`,
the strings `"File"`/`"FileResponse"`, subclasses of `Redirect`, `File`,
other `ResponseContainer` subclasses, `Response` subclasses,
`FileResponse` (a `Response` subclass), async callables / `ASGIApp`,
`str`, and anything else. -/
inductive Ann
  | empty
  | noneType
  | noneStr
  | fileStr
  | fileResponseStr
  | redirect
  | file
  | responseContainerOther
  | response
  | fileResponse
  | asgiCallable
  | strType
  | other
deriving DecidableEq, Repr

/-- `is_class_and_subclass(ann, Redirect)`. -/
def isSubRedirect : Ann → Bool
  | .redirect => true
  | _ => false

/-- `is_class_and_subclass(ann, File)`. -/
def isSubFile : Ann → Bool
  | .file => true
  | _ => false

/-- `is_class_and_subclass(ann, FileResponse)`. -/
def isSubFileResponse : Ann → Bool
  | .fileResponse => true
  | _ => false

/-- `is_class_and_subclass(ann, ResponseContainer)`: `Redirect` and `File`
are `ResponseContainer` subclasses. -/
def isSubResponseContainer : Ann → Bool
  | .redirect | .file | .responseContainerOther => true
  | _ => false

/-- `is_class_and_subclass(ann, Response)`: `FileResponse` is a `Response`
subclass. -/
def isSubResponse : Ann → Bool
  | .response | .fileResponse => true
  | _ => false

/-- `is_async_callable(ann) or ann in {ASGIApp, "ASGIApp"}`. -/
def isAsgiAnn : Ann → Bool
  | .asgiCallable => true
  | _ => false

/-- `ann in {None, "None"}`. -/
def annIsNone : Ann → Bool
  | .noneType | .noneStr => true
  | _ => false

/-- The media types the validation logic distinguishes (`MediaType` enum). -/
inductive MediaKind
  | json
  | html
  | text
  | otherMedia
deriving DecidableEq, Repr

/-- Modelled from the spec's error taxonomy (starlite/exceptions is not in
src/): `improperlyConfigured` is the registration-time ConfigurationError
(`ImproperlyConfiguredException`), `validation` is `ValidationException`. -/
inductive RegistrationError
  | improperlyConfigured (msg : String)
  | validation (msg : String)
deriving DecidableEq, Repr

/-- True exactly for the spec's ConfigurationError
(`ImproperlyConfiguredException`). -/
def RegistrationError.isConfigError : RegistrationError → Bool
  | .improperlyConfigured _ => true
  | .validation _ => false

/-- Modelled from the spec: the "redirect-class status codes" required for
redirect-typed returns (`REDIRECT_STATUS_CODES` in starlite/constants.py,
not in src/). -/
def REDIRECT_STATUS_CODES : Finset Nat := {301, 302, 303, 307, 308}

/-- The state of a route handler that `_validate_handler_function` inspects:
its methods, status code, return-type declaration, media type and the
names of the handler function's parameters. -/
structure HandlerModel where
  http_methods : Finset String
  status_code : Nat
  return_ann : Ann
  media_kind : MediaKind
  param_names : List String
deriving DecidableEq

def msgMissingRet : String :=
  "A return value of a route handler function should be type annotated."

def msgNoBodyStatus : String :=
  "A status code 204, 304 or in the range below 200 does not support a response body."

def msgRedirectStatus : String :=
  "Redirect responses should have one of the following status codes: 301, 302, 303, 307, 308"

def msgSocket : String :=
  "The 'socket' kwarg is not supported with http handlers"

def msgDataGet : String :=
  "'data' kwarg is unsupported for 'GET' request handlers"

def msgHeadBody : String :=
  "A response to a head request should not have a body"

/-- Embeds `HTTPRouteHandler._validate_handler_function`
(src/starlite/handlers/http_handlers.py lines 668-708), in source order:
missing return declaration; body-forbidding status codes (`<200`, `204`,
`304`) with a non-`None` return; redirect return with a non-redirect
status (raises `ValidationException`); `File`/`FileResponse` returns force
text media; forbidden `socket` parameter; forbidden `data` parameter on
`GET`.  Success returns the (possibly media-updated) handler. -/
def http_validate (h : HandlerModel) : Except RegistrationError HandlerModel :=
  if h.return_ann = .empty then
    .error (.improperlyConfigured msgMissingRet)
  else if (h.status_code < 200 ∨ h.status_code = 204 ∨ h.status_code = 304)
      ∧ ¬(annIsNone h.return_ann = true) then
    .error (.improperlyConfigured msgNoBodyStatus)
  else if isSubRedirect h.return_ann = true ∧ h.status_code ∉ REDIRECT_STATUS_CODES then
    .error (.validation msgRedirectStatus)
  else
    let h' := if (isSubFile h.return_ann = true ∨ isSubFileResponse h.return_ann = true)
        ∧ (h.media_kind = .json ∨ h.media_kind = .html)
      then { h with media_kind := .text } else h
    if "socket" ∈ h'.param_names then
      .error (.improperlyConfigured msgSocket)
    else if "data" ∈ h'.param_names ∧ "GET" ∈ h'.http_methods then
      .error (.improperlyConfigured msgDataGet)
    else
      .ok h'

/-- The return declarations `head._validate_handler_function` accepts:
`ann in {None, "None", "FileResponse", "File"}` or a subclass of `File` or
of `FileResponse`. -/
def head_allowed (a : Ann) : Bool :=
  annIsNone a || (a == .fileStr) || (a == .fileResponseStr) || isSubFile a || isSubFileResponse a

/-- Embeds `head._validate_handler_function`
(src/starlite/handlers/http_handlers.py lines 1019-1031): run the
superclass validation, then reject any return declaration outside
`head_allowed`. -/
def head_validate (h : HandlerModel) : Except RegistrationError HandlerModel :=
  match http_validate h with
  | .error e => .error e
  | .ok h' =>
    if head_allowed h'.return_ann then .ok h'
    else .error (.improperlyConfigured msgHeadBody)

/-- The `HttpMethod` enum (a `str` subclass in the source). -/
inductive HttpMethodE
  | get
  | head
  | post
  | put
  | patch
  | delete
deriving DecidableEq, Repr

/-- `HttpMethod.value`. -/
def HttpMethodE.value : HttpMethodE → String
  | .get => "GET"
  | .head => "HEAD"
  | .post => "POST"
  | .put => "PUT"
  | .patch => "PATCH"
  | .delete => "DELETE"

def allHttpMethods : List HttpMethodE :=
  [.get, .head, .post, .put, .patch, .delete]

/-- `HTTP_METHOD_NAMES = {m.value for m in HttpMethod}`. -/
def HTTP_METHOD_NAMES : Finset String :=
  (allHttpMethods.map HttpMethodE.value).toFinset

/-- Python `str.upper` for the ASCII method tokens involved. -/
def strUpper (s : String) : String :=
  ⟨s.data.map Char.toUpper⟩

/-- One element of the `http_method` argument: an `HttpMethod` member or a
plain string. -/
inductive MethodToken
  | enumMember (m : HttpMethodE)
  | strToken (s : String)
deriving DecidableEq, Repr

/-- The canonical name the loop computes for a token:
`method.value.upper()` for enum members, `method.upper()` for strings. -/
def tokenName : MethodToken → String
  | .enumMember m => strUpper m.value
  | .strToken s => strUpper s

/-- The `http_methods` argument shape: one token (a string or an enum
member — `HttpMethod` is a `str` subclass, so `isinstance(x, str)` is true
for both) or a sequence of tokens. -/
inductive MethodInput
  | single (t : MethodToken)
  | seq (ts : List MethodToken)
deriving DecidableEq, Repr

/-- The token list the loop ranges over: a single token is wrapped into a
one-element list. -/
def inputTokens : MethodInput → List MethodToken
  | .single t => [t]
  | .seq ts => ts

/-- The per-token step of `_normalize_http_method`'s loop: compute the
upper-cased name, raise `ValidationException` on a name outside
`HTTP_METHOD_NAMES`, else add it to the output set. -/
def normStep (acc : Finset String) (t : MethodToken) : Except String (Finset String) :=
  let name := tokenName t
  if name ∈ HTTP_METHOD_NAMES then .ok (insert name acc)
  else .error ("Invalid HTTP method: " ++ name)

/-- Embeds `_normalize_http_method`
(src/starlite/handlers/http_handlers.py lines 236-259): wrap a lone token,
then run the per-token loop over the tokens. -/
def normalize_http_method (input : MethodInput) : Except String (Finset String) :=
  (inputTokens input).foldlM normStep (∅ : Finset String)

/-- Embeds `_get_default_status_code`
(src/starlite/handlers/http_handlers.py lines 262-275). -/
def get_default_status_code (http_methods : Finset String) : Nat :=
  if "POST" ∈ http_methods then 201
  else if "DELETE" ∈ http_methods then 204
  else 200

/-- Embeds the status-code assignment of `HTTPRouteHandler.__init__`
line 428: `self.status_code = status_code or _get_default_status_code(...)`
(Python `or`: `None` and the falsy `0` fall back to the default). -/
def init_status_code (explicit : Option Nat) (http_methods : Finset String) : Nat :=
  match explicit with
  | none => get_default_status_code http_methods
  | some n => if n = 0 then get_default_status_code http_methods else n

/-- The four response-construction strategies `resolve_response_handler`
can bind, with the layered configuration each closure captures
(`_create_response_container_handler`, `_create_response_handler`,
`_create_generic_asgi_response_handler`, `_create_data_handler`). -/
inductive ResponseStrategy
  | containerHandler (after_request : Option Nat) (cookies : List Cookie)
      (headers : List ResponseHeader) (media_kind : MediaKind) (status_code : Nat)
  | prebuiltHandler (after_request : Option Nat) (cookies : List Cookie)
  | asgiHandler (after_request : Option Nat) (cookies : List Cookie)
  | dataHandler (after_request : Option Nat) (cookies : List Cookie)
      (headers : List ResponseHeader) (media_kind : MediaKind)
      (response_class : Nat) (return_ann : Ann) (status_code : Nat)
deriving DecidableEq, Repr

/-- The strategy family, without its captured configuration. -/
inductive StrategyKind
  | container
  | prebuilt
  | asgi
  | data
deriving DecidableEq, Repr

def ResponseStrategy.kind : ResponseStrategy → StrategyKind
  | .containerHandler _ _ _ _ _ => .container
  | .prebuiltHandler _ _ => .prebuilt
  | .asgiHandler _ _ => .asgi
  | .dataHandler _ _ _ _ _ _ _ => .data

/-- The mutable state of one `HTTPRouteHandler` instance: its frozen
ownership chain and inputs, plus the memoization slots that start as
`Empty` (`none` here) and are filled on first resolution
(`_resolved_before_request`, `_resolved_after_response`,
`_resolved_response_handler`). -/
structure HttpHandlerState where
  ownership_layers : List Layer
  return_ann : Ann
  status_code : Nat
  media_kind : MediaKind
  resolved_before_request : Option (Option Nat)
  resolved_after_response : Option (Option Nat)
  resolved_response_handler : Option ResponseStrategy
deriving DecidableEq, Repr

/-- The memoized `resolve_before_request`: answer from the cache when it is
non-`Empty`, else compute and fill the cache. -/
def resolve_before_request_st (st : HttpHandlerState) : Option Nat × HttpHandlerState :=
  match st.resolved_before_request with
  | some v => (v, st)
  | none =>
    let v := resolve_before_request st.ownership_layers
    (v, { st with resolved_before_request := some v })

/-- The memoized `resolve_after_response`. -/
def resolve_after_response_st (st : HttpHandlerState) : Option Nat × HttpHandlerState :=
  match st.resolved_after_response with
  | some v => (v, st)
  | none =>
    let v := resolve_after_response st.ownership_layers
    (v, { st with resolved_after_response := some v })

/-- Embeds `HTTPRouteHandler.resolve_response_handler`
(src/starlite/handlers/http_handlers.py lines 591-648): on a cold cache,
resolve the layered configuration once and select a strategy by testing
the return declaration in source order — `ResponseContainer` subclass,
then `Response` subclass, then async callable / `ASGIApp`, then the
generic data fallback — then memoize it; on a warm cache, return the
cached strategy unchanged. -/
def resolve_response_handler (st : HttpHandlerState) : ResponseStrategy × HttpHandlerState :=
  match st.resolved_response_handler with
  | some h => (h, st)
  | none =>
    let after_request := resolve_after_request st.ownership_layers
    let cookies := resolve_response_cookies st.ownership_layers
    let headers := resolve_response_headers st.ownership_layers
    let response_class := resolve_response_class st.ownership_layers
    let handler :=
      if isSubResponseContainer st.return_ann then
        ResponseStrategy.containerHandler after_request cookies headers st.media_kind st.status_code
      else if isSubResponse st.return_ann then
        ResponseStrategy.prebuiltHandler after_request cookies
      else if isAsgiAnn st.return_ann then
        ResponseStrategy.asgiHandler after_request cookies
      else
        ResponseStrategy.dataHandler after_request cookies headers st.media_kind
          response_class st.return_ann st.status_code
    (handler, { st with resolved_response_handler := some handler })

/-- Cookie resolution as a read of the handler state (the method reads only
`self.ownership_layers`). -/
def resolve_response_cookies_of (st : HttpHandlerState) : List Cookie :=
  resolve_response_cookies st.ownership_layers

/-- Header resolution as a read of the handler state. -/
def resolve_response_headers_of (st : HttpHandlerState) : List ResponseHeader :=
  resolve_response_headers st.ownership_layers

/-- An outgoing ASGI message: its `type` field and an abstract rendering of
the rest of the payload. -/
structure Message where
  mtype : String
  payload : String
deriving DecidableEq, Repr

/-- A session mapping (string keys to serialized values). -/
abbrev SessionData := List (String × String)

/-- The part of the ASGI scope the session middleware touches: the
`"session"` entry (`none` when the key is absent). -/
structure ScopeModel where
  session : Option SessionData
deriving DecidableEq, Repr

/-- The backend surface `SessionMiddleware` uses: `store_in_message` may
mutate the outgoing message (e.g. inject Set-Cookie headers) and is given
the scope's session; `load_from_connection` yields the session mapping
for the connection. -/
structure SessionBackendModel where
  store_in_message : Option SessionData → Message → Message
  load_from_connection : SessionData

/-- Observable events of the wrapped send: an invocation of the backend's
`store_in_message` (with the session it was given and the message before
mutation), or a forward of a message to the real `send`. -/
inductive SendEvent
  | backendStore (sess : Option SessionData) (msg : Message)
  | send (msg : Message)
deriving DecidableEq, Repr

/-- Embeds `wrapped_send` of `SessionMiddleware.create_send_wrapper`
(src/starlite/middleware/session/base.py lines 216-234): a message whose
type is not `"http.response.start"` is forwarded untouched; for an
`"http.response.start"` message the backend's `store_in_message` is
invoked with `scope.get("session")` and the (possibly mutated) message is
then forwarded. -/
def wrapped_send (backend : SessionBackendModel) (scope : ScopeModel) (msg : Message) :
    List SendEvent :=
  if msg.mtype ≠ "http.response.start" then [SendEvent.send msg]
  else
    [SendEvent.backendStore scope.session msg,
     SendEvent.send (backend.store_in_message scope.session msg)]

/-- The event trace of passing a whole outgoing message sequence through the
send wrapper (the wrapper is stateless, so the trace is the concatenation
of the per-message traces). -/
def create_send_wrapper_run (backend : SessionBackendModel) (scope : ScopeModel)
    (msgs : List Message) : List SendEvent :=
  (msgs.map (wrapped_send backend scope)).flatten

/-- Embeds `SessionMiddleware.__call__`
(src/starlite/middleware/session/base.py lines 238-253): load the session
from the connection, store it under `scope["session"]`, then run the
wrapped app (abstracted as the outgoing messages it produces from the
scope) with the wrapped send. -/
def session_middleware_call (backend : SessionBackendModel)
    (app : ScopeModel → List Message) : List SendEvent :=
  let scope' : ScopeModel := { session := some backend.load_from_connection }
  create_send_wrapper_run backend scope' (app scope')

/-- The backend invocations in an event trace. -/
def storeEvents (events : List SendEvent) : List SendEvent :=
  events.filter (fun e => match e with | .backendStore _ _ => true | .send _ => false)

/-- The messages forwarded to the real send in an event trace, in order. -/
def sentMessages (events : List SendEvent) : List Message :=
  events.filterMap (fun e => match e with | .backendStore _ _ => none | .send m => some m)

/- Concrete inputs used by the closed witness theorems below. -/

/-- An outer layer defining cookies `a` and `b`. -/
def outerLayer : Layer :=
  ⟨none, some [⟨"a", "outer", false⟩, ⟨"b", "x", false⟩], none, none, none, none, none, none⟩

/-- An inner layer overriding cookie `a`. -/
def innerLayer : Layer :=
  ⟨none, some [⟨"a", "inner", false⟩], none, none, none, none, none, none⟩

/-- A one-layer chain defining no hooks. -/
def noHookLayers : List Layer :=
  [⟨none, none, none, none, none, none, none, none⟩]

/-- A DELETE handler with status 204 and a `str` return declaration. -/
def hDelete204 : HandlerModel := ⟨{"DELETE"}, 204, .strType, .json, []⟩

/-- A GET handler with status 200 and a redirect return declaration. -/
def hRedirect200 : HandlerModel := ⟨{"GET"}, 200, .redirect, .json, []⟩

/-- A HEAD handler with status 200 and a `str` return declaration. -/
def hHeadStr : HandlerModel := ⟨{"HEAD"}, 200, .strType, .json, []⟩

/-- The scenario input `http_method=["GET", "get"]`. -/
def getGetInput : MethodInput := .seq [.strToken "GET", .strToken "get"]

/-- A handler state with a cold dispatch cache and a redirect return
declaration. -/
def coldRedirectState : HttpHandlerState :=
  ⟨[outerLayer, innerLayer], .redirect, 301, .json, none, none, none⟩

/-- A response-start ASGI message. -/
def startMsg : Message := ⟨"http.response.start", "r"⟩

/-- A response-body ASGI message. -/
def bodyMsg : Message := ⟨"http.response.body", "b"⟩

/-- A backend whose `store_in_message` leaves the message unchanged. -/
def idBackend : SessionBackendModel := ⟨fun _ m => m, []⟩

/-- A scope carrying an empty session mapping. -/
def emptyScope : ScopeModel := ⟨some []⟩

/-! ### General lemmas about the list combinators the embedding uses -/

theorem oor_none_right {α : Type} (a : Option α) : oor a none = a := by
  cases a <;> rfl

theorem oor_none_left {α : Type} (b : Option α) : oor none b = b := rfl

theorem oor_assoc {α : Type} (a b c : Option α) : oor (oor a b) c = oor a (oor b c) := by
  cases a <;> rfl

theorem find?_append_oor {α : Type} (p : α → Bool) (s t : List α) :
    (s ++ t).find? p = oor (s.find? p) (t.find? p) := by
  induction s with
  | nil => simp [oor]
  | cons a as ih => cases h : p a <;> simp [List.find?_cons, h, ih, oor]

theorem any_eq_isSome_find? {α : Type} (p : α → Bool) (s : List α) :
    s.any p = (s.find? p).isSome := by
  induction s with
  | nil => rfl
  | cons a as ih => cases h : p a <;> simp [List.find?_cons, List.any_cons, h, ih]

theorem findSome?_append_oor {α β : Type} (f : α → Option β) (s t : List α) :
    (s ++ t).findSome? f = oor (s.findSome? f) (t.findSome? f) := by
  induction s with
  | nil => simp [oor]
  | cons a as ih => cases h : f a <;> simp [List.findSome?_cons, h, ih, oor]

theorem findSome?_congr {α β : Type} (f g : α → Option β) (L : List α)
    (h : ∀ x ∈ L, f x = g x) : L.findSome? f = L.findSome? g := by
  induction L with
  | nil => rfl
  | cons a as ih =>
    rw [List.findSome?_cons, List.findSome?_cons, h a (by simp),
      ih (fun x hx => h x (by simp [hx]))]

theorem findSome?_eq_none_of {α β : Type} (f : α → Option β) (L : List α)
    (h : ∀ x ∈ L, f x = none) : L.findSome? f = none := by
  induction L with
  | nil => rfl
  | cons a as ih =>
    rw [List.findSome?_cons, h a (by simp)]
    exact ih (fun x hx => h x (by simp [hx]))

theorem getLast?_filterMap_eq_findSome?_reverse {α β : Type} (f : α → Option β) (L : List α) :
    (L.filterMap f).getLast? = L.reverse.findSome? f := by
  rw [List.getLast?_eq_head?_reverse, ← List.filterMap_reverse]
  generalize L.reverse = M
  induction M with
  | nil => rfl
  | cons a as ih => cases h : f a <;> simp [List.filterMap_cons, h, List.findSome?_cons, ih]

theorem find?_filter_keep {α : Type} (p q : α → Bool) (s : List α)
    (h : ∀ x, p x = true → q x = true) :
    (s.filter q).find? p = s.find? p := by
  induction s with
  | nil => rfl
  | cons a as ih =>
    cases hq : q a
    · have hp : p a = false := by
        cases hpa : p a
        · rfl
        · exact absurd (h a hpa) (by simp [hq])
      simp [List.filter_cons, hq, List.find?_cons, hp, ih]
    · cases hp : p a <;> simp [List.filter_cons, hq, List.find?_cons, hp, ih]

/-! ### Cookie-merge characterization lemmas (for claims C1 and C8) -/

theorem oor_ite_none {α : Type} (cond : Bool) (x : α) (b : Option α) :
    oor (if cond then some x else none) b = if cond then some x else b := by
  cases cond <;> rfl

theorem find_cookie_append (k : String) (s t : List Cookie) :
    find_cookie k (s ++ t) = oor (find_cookie k s) (find_cookie k t) := by
  unfold find_cookie
  exact find?_append_oor (fun c => c.key == k) s t

theorem find_cookie_singleton (k : String) (c : Cookie) :
    find_cookie k [c] = if c.key == k then some c else none := by
  cases hk : (c.key == k) <;> simp [find_cookie, List.find?_cons, hk]

theorem find_cookie_cons (k : String) (c : Cookie) (cs : List Cookie) :
    find_cookie k (c :: cs) = oor (if c.key == k then some c else none) (find_cookie k cs) := by
  cases hk : (c.key == k) <;> simp [find_cookie, List.find?_cons, hk, oor]

theorem findSome?_cons_oor {α β : Type} (f : α → Option β) (a : α) (L : List α) :
    List.findSome? f (a :: L) = oor (f a) (List.findSome? f L) := by
  cases h : f a <;> simp [List.findSome?_cons, h, oor]

theorem find_cookie_set_insert (k : String) (s : List Cookie) (c : Cookie) :
    find_cookie k (set_insert_cookie s c) =
      oor (find_cookie k s) (if c.key == k then some c else none) := by
  unfold set_insert_cookie find_cookie
  cases hany : s.any (fun c2 => c2.key == c.key)
  · rw [if_neg (by simp [hany]), find?_append_oor]
    cases hk : (c.key == k) <;> simp [List.find?_cons, hk]
  · rw [if_pos (by simp [hany])]
    cases hk : (c.key == k)
    · simp [oor_none_right]
    · have hkey : c.key = k := by simpa using hk
      rw [any_eq_isSome_find?] at hany
      subst hkey
      cases hf : s.find? (fun c2 => c2.key == c.key)
      · rw [hf] at hany; simp at hany
      · simp [hf, oor]

theorem find_cookie_foldl_insert (k : String) (cs : List Cookie) (s : List Cookie) :
    find_cookie k (cs.foldl set_insert_cookie s) =
      oor (find_cookie k s) (find_cookie k cs) := by
  induction cs generalizing s with
  | nil => simp [find_cookie, oor_none_right]
  | cons c cs ih =>
    rw [List.foldl_cons, ih, find_cookie_set_insert, find_cookie_cons, oor_assoc]

theorem find_cookie_foldl_layers (k : String) (L : List Layer) (s : List Cookie) :
    find_cookie k (L.foldl (fun s l => (layer_cookies l).foldl set_insert_cookie s) s) =
      oor (find_cookie k s) (L.findSome? (fun l => find_cookie k (layer_cookies l))) := by
  induction L generalizing s with
  | nil => simp [oor_none_right]
  | cons l ls ih =>
    rw [List.foldl_cons, ih, find_cookie_foldl_insert, findSome?_cons_oor, oor_assoc]

theorem find_cookie_code (layers : List Layer) (k : String) :
    find_cookie k (resolve_response_cookies layers) =
      layers.reverse.findSome? (fun l => find_cookie k (layer_cookies l)) := by
  unfold resolve_response_cookies
  rw [find_cookie_foldl_layers]
  rfl

theorem find_cookie_overwrite (k : String) (s : List Cookie) (c : Cookie) :
    find_cookie k (overwrite_cookie s c) =
      if c.key == k then some c else find_cookie k s := by
  unfold overwrite_cookie find_cookie
  rw [find?_append_oor]
  cases hk : (c.key == k)
  · rw [if_neg (by simp [hk])]
    have : (List.filter (fun c2 => !(c2.key == c.key)) s).find? (fun c2 => c2.key == k) =
        s.find? (fun c2 => c2.key == k) := by
      apply find?_filter_keep
      intro x hx
      have hxk : x.key = k := by simpa using hx
      have hck : ¬(c.key = k) := by simpa using hk
      simp [hxk]
      intro hxc
      exact hck (by rw [← hxc])
    rw [this]
    simp [List.find?_cons, hk, oor_none_right]
  · rw [if_pos (by simp [hk])]
    have hkey : c.key = k := by simpa using hk
    have : (List.filter (fun c2 => !(c2.key == c.key)) s).find? (fun c2 => c2.key == k) = none := by
      apply List.find?_eq_none.mpr
      intro x hx
      have := List.of_mem_filter hx
      simp at this
      simp [hkey] at this ⊢
      exact this
    rw [this]
    simp [List.find?_cons, hk, oor]

theorem find_cookie_foldl_overwrite (k : String) (cs : List Cookie) (s : List Cookie) :
    find_cookie k (cs.foldl overwrite_cookie s) =
      oor (find_cookie k cs.reverse) (find_cookie k s) := by
  induction cs generalizing s with
  | nil => simp [find_cookie, oor]
  | cons c cs ih =>
    rw [List.foldl_cons, ih, find_cookie_overwrite, List.reverse_cons, find_cookie_append,
      find_cookie_singleton, oor_assoc, oor_ite_none]

theorem find_cookie_spec_layers (k : String) (L : List Layer) (s : List Cookie) :
    find_cookie k (L.foldl (fun s l => (layer_cookies l).foldl overwrite_cookie s) s) =
      oor (L.reverse.findSome? (fun l => find_cookie k (layer_cookies l).reverse))
        (find_cookie k s) := by
  induction L generalizing s with
  | nil => simp [oor]
  | cons l ls ih =>
    rw [List.foldl_cons, ih, find_cookie_foldl_overwrite, List.reverse_cons,
      findSome?_append_oor, oor_assoc]
    congr 1
    have hsing : List.findSome? (fun l => find_cookie k (layer_cookies l).reverse) [l] =
        find_cookie k (layer_cookies l).reverse := by
      cases hfl : find_cookie k (layer_cookies l).reverse <;>
        simp [List.findSome?_cons, hfl]
    rw [hsing]

theorem find_cookie_spec (layers : List Layer) (k : String) :
    find_cookie k (spec_resolve_response_cookies layers) =
      layers.reverse.findSome? (fun l => find_cookie k (layer_cookies l).reverse) := by
  unfold spec_resolve_response_cookies
  have h0 : find_cookie k ([] : List Cookie) = none := rfl
  rw [find_cookie_spec_layers, h0, oor_none_right]

theorem find_cookie_notin (k : String) (cs : List Cookie) (h : k ∉ cs.map Cookie.key) :
    find_cookie k cs = none := by
  apply List.find?_eq_none.mpr
  intro x hx
  simp only [beq_iff_eq]
  intro hxk
  exact h (by rw [← hxk]; exact List.mem_map_of_mem Cookie.key hx)

theorem find_cookie_reverse_of_nodup (k : String) (cs : List Cookie)
    (h : (cs.map Cookie.key).Nodup) :
    find_cookie k cs.reverse = find_cookie k cs := by
  induction cs with
  | nil => rfl
  | cons c cs ih =>
    rw [List.map_cons, List.nodup_cons] at h
    obtain ⟨hnotin, hnd⟩ := h
    rw [List.reverse_cons, find_cookie_append, ih hnd, find_cookie_singleton,
      find_cookie_cons]
    cases hk : (c.key == k)
    · simp [hk, oor_none_right, oor_none_left]
    · have hkey : c.key = k := by simpa using hk
      have hnone : find_cookie k cs = none := by
        apply find_cookie_notin
        rw [← hkey]
        exact hnotin
      rw [hnone]
      simp [hk, oor_none_right, oor_none_left]

/-! ### Claim theorems -/

/-- Claim C1: for every ownership chain (each layer listing its cookies with
distinct keys), the merged cookie set produced by
`resolve_response_cookies` collapses duplicates by key exactly as an
outer→inner scan with later-scanned-layer-wins does: looking up any key in
the code's merged set and in the spec-described merge yields the same
cookie. -/
theorem resolve_response_cookies_eq_spec_merge (layers : List Layer)
    (h : ∀ l ∈ layers, ((layer_cookies l).map Cookie.key).Nodup) (k : String) :
    find_cookie k (resolve_response_cookies layers) =
      find_cookie k (spec_resolve_response_cookies layers) := by
  rw [find_cookie_code, find_cookie_spec]
  apply findSome?_congr
  intro l hl
  rw [find_cookie_reverse_of_nodup k _ (h l (List.mem_reverse.mp hl))]

/-- Witness for C1: a two-layer chain where the inner layer overrides cookie
`a`; the hypotheses hold and the two merges agree on key `a`. -/
theorem resolve_response_cookies_eq_spec_merge_witness :
    (∀ l ∈ [outerLayer, innerLayer], ((layer_cookies l).map Cookie.key).Nodup)
    ∧ find_cookie "a" (resolve_response_cookies [outerLayer, innerLayer]) =
        find_cookie "a" (spec_resolve_response_cookies [outerLayer, innerLayer]) :=
  ⟨by decide, resolve_response_cookies_eq_spec_merge [outerLayer, innerLayer] (by decide) "a"⟩

/-- Claim C6: the resolved `before_request` and `after_response` hooks are
the last non-null hook found scanning the chain outer→inner, i.e. the hook
of the innermost layer defining one (`List.findSome?` over the reversed
chain), and `none` when no layer defines one. -/
theorem hook_resolution_innermost (layers : List Layer) :
    resolve_before_request layers = layers.reverse.findSome? (fun l => l.before_request)
    ∧ resolve_after_response layers = layers.reverse.findSome? (fun l => l.after_response)
    ∧ ((∀ l ∈ layers, l.before_request = none) → resolve_before_request layers = none)
    ∧ ((∀ l ∈ layers, l.after_response = none) → resolve_after_response layers = none) := by
  refine ⟨getLast?_filterMap_eq_findSome?_reverse _ _,
    getLast?_filterMap_eq_findSome?_reverse _ _, ?_, ?_⟩
  · intro h
    rw [resolve_before_request, getLast?_filterMap_eq_findSome?_reverse]
    exact findSome?_eq_none_of _ _ (fun l hl => h l (List.mem_reverse.mp hl))
  · intro h
    rw [resolve_after_response, getLast?_filterMap_eq_findSome?_reverse]
    exact findSome?_eq_none_of _ _ (fun l hl => h l (List.mem_reverse.mp hl))

/-- Witness for C6: on a chain defining no hooks the resolution is `none`. -/
theorem hook_resolution_innermost_witness :
    (∀ l ∈ noHookLayers, l.before_request = none)
    ∧ resolve_before_request noHookLayers = none :=
  ⟨by decide, (hook_resolution_innermost noHookLayers).2.2.1 (by decide)⟩

/-- Claim C3: a handler constructed without an explicit status code gets 201
if POST is among its methods, 204 if DELETE is among its methods and POST
is not, and 200 otherwise. -/
theorem default_status_code_policy (ms : Finset String) :
    ("POST" ∈ ms → init_status_code none ms = 201)
    ∧ ("POST" ∉ ms → "DELETE" ∈ ms → init_status_code none ms = 204)
    ∧ ("POST" ∉ ms → "DELETE" ∉ ms → init_status_code none ms = 200) := by
  refine ⟨fun h => ?_, fun h1 h2 => ?_, fun h1 h2 => ?_⟩ <;>
    simp [init_status_code, get_default_status_code, *]

/-- Witness for C3: the three cases at concrete method sets. -/
theorem default_status_code_policy_witness :
    init_status_code none {"POST", "GET"} = 201
    ∧ init_status_code none {"DELETE"} = 204
    ∧ init_status_code none {"GET"} = 200 :=
  ⟨(default_status_code_policy {"POST", "GET"}).1 (by decide),
   (default_status_code_policy {"DELETE"}).2.1 (by decide) (by decide),
   (default_status_code_policy {"GET"}).2.2 (by decide) (by decide)⟩

theorem http_validate_ok_ret (h h' : HandlerModel) (hv : http_validate h = .ok h') :
    h'.return_ann = h.return_ann := by
  unfold http_validate at hv
  split_ifs at hv <;> try simp_all
  all_goals (split_ifs at hv; simp_all)
  all_goals rw [← hv]

/-- Claim C4: a handler whose status code is 204, 304, or below 200, with a
return declaration other than `None`, fails registration-time validation
with a ConfigurationError (`ImproperlyConfiguredException`). -/
theorem body_forbidden_status_validation (h : HandlerModel)
    (hs : h.status_code = 204 ∨ h.status_code = 304 ∨ h.status_code < 200)
    (hr : annIsNone h.return_ann = false) :
    ∃ msg, http_validate h = .error (.improperlyConfigured msg) := by
  by_cases he : h.return_ann = .empty
  · exact ⟨msgMissingRet, by unfold http_validate; rw [if_pos he]⟩
  · refine ⟨msgNoBodyStatus, ?_⟩
    unfold http_validate
    rw [if_neg he, if_pos]
    constructor
    · tauto
    · simp [hr]

/-- Witness for C4: a 204 handler with a `str` return declaration. -/
theorem body_forbidden_status_validation_witness :
    (hDelete204.status_code = 204 ∨ hDelete204.status_code = 304 ∨ hDelete204.status_code < 200)
    ∧ annIsNone hDelete204.return_ann = false
    ∧ ∃ msg, http_validate hDelete204 = .error (.improperlyConfigured msg) :=
  ⟨by decide, by decide, body_forbidden_status_validation hDelete204 (by decide) (by decide)⟩

/-- Claim C9 counterexample: a GET handler with a redirect return
declaration and status 200 does fail registration, but with a
`ValidationException`, not with the ConfigurationError the claim states. -/
theorem redirect_status_error_kind_counterexample :
    http_validate hRedirect200 = .error (.validation msgRedirectStatus)
    ∧ (RegistrationError.validation msgRedirectStatus).isConfigError = false := by
  constructor
  · rfl
  · rfl

/-- Claim C9 (amended): a handler whose return declaration is a redirect
type and whose status code is not a redirect-class code fails registration
with an error; when the status code is not itself body-forbidding the
error is a `ValidationException` (not a configuration error). -/
theorem redirect_status_validation_fails (h : HandlerModel)
    (hr : isSubRedirect h.return_ann = true)
    (hs : h.status_code ∉ REDIRECT_STATUS_CODES) :
    (∃ e, http_validate h = .error e)
    ∧ (200 ≤ h.status_code → h.status_code ≠ 204 → h.status_code ≠ 304 →
        http_validate h = .error (.validation msgRedirectStatus)) := by
  have hann : h.return_ann = .redirect := by
    cases hx : h.return_ann <;> simp_all [isSubRedirect]
  have hne : ¬(h.return_ann = .empty) := by simp [hann]
  by_cases hc2 : (h.status_code < 200 ∨ h.status_code = 204 ∨ h.status_code = 304)
  · constructor
    · refine ⟨.improperlyConfigured msgNoBodyStatus, ?_⟩
      unfold http_validate
      rw [if_neg hne, if_pos ⟨hc2, by simp [hann, annIsNone]⟩]
    · intro hge h204 h304
      exact absurd hc2 (by push_neg; exact ⟨by omega, h204, h304⟩)
  · have hval : http_validate h = .error (.validation msgRedirectStatus) := by
      unfold http_validate
      rw [if_neg hne, if_neg (by tauto), if_pos ⟨hr, hs⟩]
    exact ⟨⟨_, hval⟩, fun _ _ _ => hval⟩

/-- Witness for C9 (amended): the hypotheses and conclusion at the concrete
redirect/200 handler. -/
theorem redirect_status_validation_fails_witness :
    isSubRedirect hRedirect200.return_ann = true
    ∧ hRedirect200.status_code ∉ REDIRECT_STATUS_CODES
    ∧ http_validate hRedirect200 = .error (.validation msgRedirectStatus) :=
  ⟨by decide, by decide,
   (redirect_status_validation_fails hRedirect200 (by decide) (by decide)).2
     (by decide) (by decide) (by decide)⟩

/-- Claim C10: a HEAD handler whose return declaration is not a file or none
type (e.g. `str`) fails registration with an error. -/
theorem head_body_forbidden (h : HandlerModel)
    (hna : head_allowed h.return_ann = false) :
    ∃ e, head_validate h = .error e := by
  unfold head_validate
  cases hv : http_validate h with
  | error e => exact ⟨e, rfl⟩
  | ok h' =>
    have hret := http_validate_ok_ret h h' hv
    refine ⟨.improperlyConfigured msgHeadBody, ?_⟩
    simp [hret, hna]

/-- Witness for C10: a HEAD handler with return declaration `str`. -/
theorem head_body_forbidden_witness :
    head_allowed hHeadStr.return_ann = false
    ∧ ∃ e, head_validate hHeadStr = .error e :=
  ⟨by decide, head_body_forbidden hHeadStr (by decide)⟩

theorem normStep_ok (acc : Finset String) (t : MethodToken)
    (ht : tokenName t ∈ HTTP_METHOD_NAMES) :
    normStep acc t = .ok (insert (tokenName t) acc) := by
  simp [normStep, ht]

theorem normalize_fold_ok (ts : List MethodToken) (acc : Finset String)
    (h : ∀ t ∈ ts, tokenName t ∈ HTTP_METHOD_NAMES) :
    ts.foldlM normStep acc = .ok (ts.foldl (fun a t => insert (tokenName t) a) acc) := by
  induction ts generalizing acc with
  | nil => rfl
  | cons t ts ih =>
    have ht : tokenName t ∈ HTTP_METHOD_NAMES := h t (by simp)
    rw [List.foldlM_cons, normStep_ok acc t ht]
    show (ts.foldlM normStep (insert (tokenName t) acc)) = _
    rw [ih (insert (tokenName t) acc) (fun x hx => h x (by simp [hx])), List.foldl_cons]

theorem normalize_fold_error (ts : List MethodToken) (acc : Finset String)
    (h : ∃ t ∈ ts, tokenName t ∉ HTTP_METHOD_NAMES) :
    ∃ e, ts.foldlM normStep acc = .error e := by
  induction ts generalizing acc with
  | nil => simp at h
  | cons t ts ih =>
    by_cases ht : tokenName t ∈ HTTP_METHOD_NAMES
    · have h' : ∃ t' ∈ ts, tokenName t' ∉ HTTP_METHOD_NAMES := by
        rcases h with ⟨t', ht', hn⟩
        rcases List.mem_cons.mp ht' with rfl | hmem
        · exact absurd ht hn
        · exact ⟨t', hmem, hn⟩
      rcases ih (insert (tokenName t) acc) h' with ⟨e, he⟩
      refine ⟨e, ?_⟩
      rw [List.foldlM_cons, normStep_ok acc t ht]
      exact he
    · refine ⟨"Invalid HTTP method: " ++ tokenName t, ?_⟩
      rw [List.foldlM_cons]
      have : normStep acc t = .error ("Invalid HTTP method: " ++ tokenName t) := by
        simp [normStep, ht]
      rw [this]
      rfl

theorem mem_foldl_insert (ts : List MethodToken) (acc : Finset String) (x : String) :
    x ∈ ts.foldl (fun a t => insert (tokenName t) a) acc ↔
      x ∈ acc ∨ ∃ t ∈ ts, tokenName t = x := by
  induction ts generalizing acc with
  | nil => simp
  | cons t ts ih =>
    rw [List.foldl_cons, ih]
    simp [Finset.mem_insert]
    tauto

/-- Claim C5 counterexample: the empty sequence is a legal input shape, and
normalization returns the empty set on it — neither a non-empty set nor a
validation error, contradicting the claim as stated. -/
theorem normalize_http_method_empty_counterexample :
    normalize_http_method (.seq []) = .ok (∅ : Finset String)
    ∧ ¬(∅ : Finset String).Nonempty :=
  ⟨rfl, by simp⟩

/-- Claim C5 (amended): for every input that is one method token, an enum
member, or a non-empty sequence of either, normalization returns a
non-empty set of canonical upper-case method strings when all tokens are
known, and fails with a validation error if any token is not among the
known method set.  (An empty sequence yields an empty set; the constructor
rejects it separately.) -/
theorem normalize_http_method_contract (input : MethodInput)
    (hne : inputTokens input ≠ []) :
    ((∀ t ∈ inputTokens input, tokenName t ∈ HTTP_METHOD_NAMES) →
      ∃ s, normalize_http_method input = .ok s ∧ s.Nonempty
        ∧ ∀ x ∈ s, x ∈ HTTP_METHOD_NAMES)
    ∧ ((∃ t ∈ inputTokens input, tokenName t ∉ HTTP_METHOD_NAMES) →
      ∃ e, normalize_http_method input = .error e) := by
  constructor
  · intro hall
    refine ⟨_, normalize_fold_ok (inputTokens input) ∅ hall, ?_, ?_⟩
    · cases hts : inputTokens input with
      | nil => exact absurd hts hne
      | cons t ts =>
        exact ⟨tokenName t, (mem_foldl_insert _ _ _).mpr (Or.inr ⟨t, by simp, rfl⟩)⟩
    · intro x hx
      rcases (mem_foldl_insert _ _ _).mp hx with hacc | ⟨t, ht, rfl⟩
      · simp at hacc
      · exact hall t ht
  · exact normalize_fold_error _ _

/-- Witness for C5 (amended): the scenario `["GET", "get"]` normalizes to the
non-empty canonical set `{"GET"}`. -/
theorem normalize_http_method_contract_witness :
    inputTokens getGetInput ≠ []
    ∧ (∃ s, normalize_http_method getGetInput = .ok s ∧ s.Nonempty
        ∧ ∀ x ∈ s, x ∈ HTTP_METHOD_NAMES)
    ∧ normalize_http_method getGetInput = .ok ({"GET"} : Finset String) :=
  ⟨by decide, (normalize_http_method_contract getGetInput (by decide)).1 (by decide), rfl⟩

/-- Claim C7: `resolve_response_handler` selects exactly one of the four
response-construction strategies by testing the return declaration in the
fixed precedence order `ResponseContainer` subclass → `Response` subclass
→ async callable / `ASGIApp` → generic-data fallback, fills the memo slot
with the chosen strategy, and every later call returns the cached strategy
unchanged without re-inspecting the state. -/
theorem response_handler_dispatch_and_memoization :
    (∀ st : HttpHandlerState, st.resolved_response_handler = none →
      ((isSubResponseContainer st.return_ann = true →
          (resolve_response_handler st).1.kind = .container)
        ∧ (isSubResponseContainer st.return_ann = false →
            isSubResponse st.return_ann = true →
            (resolve_response_handler st).1.kind = .prebuilt)
        ∧ (isSubResponseContainer st.return_ann = false →
            isSubResponse st.return_ann = false →
            isAsgiAnn st.return_ann = true →
            (resolve_response_handler st).1.kind = .asgi)
        ∧ (isSubResponseContainer st.return_ann = false →
            isSubResponse st.return_ann = false →
            isAsgiAnn st.return_ann = false →
            (resolve_response_handler st).1.kind = .data))
      ∧ (resolve_response_handler st).2.resolved_response_handler =
          some (resolve_response_handler st).1)
    ∧ (∀ (st : HttpHandlerState) (s : ResponseStrategy),
        st.resolved_response_handler = some s → resolve_response_handler st = (s, st))
    ∧ (∀ st : HttpHandlerState,
        resolve_response_handler ((resolve_response_handler st).2) =
          ((resolve_response_handler st).1, (resolve_response_handler st).2)) := by
  have hwarm : ∀ (st : HttpHandlerState) (s : ResponseStrategy),
      st.resolved_response_handler = some s → resolve_response_handler st = (s, st) := by
    intro st s hs
    unfold resolve_response_handler
    rw [hs]
  have hfill : ∀ st : HttpHandlerState,
      (resolve_response_handler st).2.resolved_response_handler =
        some (resolve_response_handler st).1 := by
    intro st
    unfold resolve_response_handler
    cases hs : st.resolved_response_handler
    · rfl
    · rw [hs]
  refine ⟨?_, hwarm, ?_⟩
  · intro st hcold
    refine ⟨⟨?_, ?_, ?_, ?_⟩, hfill st⟩
    all_goals intros
    all_goals unfold resolve_response_handler
    all_goals rw [hcold]
    all_goals simp [ResponseStrategy.kind, *]
  · intro st
    exact hwarm _ _ (hfill st)

/-- Witness for C7: a cold-cache state with a redirect (container) return
declaration selects the container strategy, and a repeated call returns
the identical cached strategy. -/
theorem response_handler_dispatch_and_memoization_witness :
    coldRedirectState.resolved_response_handler = none
    ∧ (resolve_response_handler coldRedirectState).1.kind = .container
    ∧ resolve_response_handler ((resolve_response_handler coldRedirectState).2) =
        ((resolve_response_handler coldRedirectState).1,
         (resolve_response_handler coldRedirectState).2) :=
  ⟨rfl,
   (response_handler_dispatch_and_memoization.1 coldRedirectState rfl).1.1 rfl,
   response_handler_dispatch_and_memoization.2.2 coldRedirectState⟩

/-- Claim C8: cookie and header resolution are idempotent for a fixed
ownership chain — they read only the frozen chain, so their merged sets
are unchanged by any of the handler's memoizing resolution steps, and
resolving twice yields identical merged sets. -/
theorem cookie_header_resolution_idempotent (st : HttpHandlerState) :
    resolve_response_cookies_of ((resolve_response_handler st).2) =
        resolve_response_cookies_of st
    ∧ resolve_response_headers_of ((resolve_response_handler st).2) =
        resolve_response_headers_of st
    ∧ resolve_response_cookies_of ((resolve_before_request_st st).2) =
        resolve_response_cookies_of st
    ∧ resolve_response_headers_of ((resolve_before_request_st st).2) =
        resolve_response_headers_of st
    ∧ resolve_response_cookies_of ((resolve_after_response_st st).2) =
        resolve_response_cookies_of st
    ∧ resolve_response_headers_of ((resolve_after_response_st st).2) =
        resolve_response_headers_of st := by
  have h1 : (resolve_response_handler st).2.ownership_layers = st.ownership_layers := by
    unfold resolve_response_handler
    cases hs : st.resolved_response_handler <;> rfl
  have h2 : (resolve_before_request_st st).2.ownership_layers = st.ownership_layers := by
    unfold resolve_before_request_st
    cases hs : st.resolved_before_request <;> rfl
  have h3 : (resolve_after_response_st st).2.ownership_layers = st.ownership_layers := by
    unfold resolve_after_response_st
    cases hs : st.resolved_after_response <;> rfl
  refine ⟨?_, ?_, ?_, ?_, ?_, ?_⟩ <;>
    simp [resolve_response_cookies_of, resolve_response_headers_of, h1, h2, h3]

theorem storeEvents_append (a b : List SendEvent) :
    storeEvents (a ++ b) = storeEvents a ++ storeEvents b := by
  simp [storeEvents, List.filter_append]

theorem sentMessages_append (a b : List SendEvent) :
    sentMessages (a ++ b) = sentMessages a ++ sentMessages b := by
  simp [sentMessages, List.filterMap_append]

theorem wrapped_send_start (b : SessionBackendModel) (sc : ScopeModel) (m : Message)
    (hm : m.mtype = "http.response.start") :
    wrapped_send b sc m =
      [SendEvent.backendStore sc.session m,
       SendEvent.send (b.store_in_message sc.session m)] := by
  simp [wrapped_send, hm]

theorem wrapped_send_other (b : SessionBackendModel) (sc : ScopeModel) (m : Message)
    (hm : m.mtype ≠ "http.response.start") :
    wrapped_send b sc m = [SendEvent.send m] := by
  simp [wrapped_send, hm]

/-- Claim C2 counterexample: the send wrapper is stateless, so on a message
sequence containing two `"http.response.start"` messages it invokes the
backend's `store_in_message` twice — not only for the first one as the
claim states. -/
theorem session_store_every_response_start_counterexample :
    create_send_wrapper_run idBackend emptyScope [startMsg, startMsg] =
      [SendEvent.backendStore (some []) startMsg, SendEvent.send startMsg,
       SendEvent.backendStore (some []) startMsg, SendEvent.send startMsg]
    ∧ (storeEvents (create_send_wrapper_run idBackend emptyScope [startMsg, startMsg])).length
        = 2 := by
  constructor <;> rfl

/-- Claim C2 (amended): every outgoing message of type
`"http.response.start"` (equivalently, in a protocol-conforming trace with
a single response-start: the first one) triggers persistence — the
backend's `store_in_message` is invoked with the current scope's session
mapping before the message is forwarded to the real send — and every
message of any other type is forwarded untouched without invoking the
backend. -/
theorem session_send_wrapper_behavior (b : SessionBackendModel) (sc : ScopeModel)
    (msgs : List Message) :
    (∀ m : Message, m.mtype = "http.response.start" →
        wrapped_send b sc m =
          [SendEvent.backendStore sc.session m,
           SendEvent.send (b.store_in_message sc.session m)])
    ∧ (∀ m : Message, m.mtype ≠ "http.response.start" →
        wrapped_send b sc m = [SendEvent.send m])
    ∧ storeEvents (create_send_wrapper_run b sc msgs) =
        (msgs.filter (fun m => m.mtype == "http.response.start")).map
          (fun m => SendEvent.backendStore sc.session m)
    ∧ sentMessages (create_send_wrapper_run b sc msgs) =
        msgs.map (fun m =>
          if m.mtype == "http.response.start" then b.store_in_message sc.session m else m) := by
  refine ⟨fun m hm => wrapped_send_start b sc m hm,
    fun m hm => wrapped_send_other b sc m hm, ?_, ?_⟩
  · unfold create_send_wrapper_run
    induction msgs with
    | nil => rfl
    | cons m ms ih =>
      rw [List.map_cons, List.flatten_cons, storeEvents_append, ih]
      by_cases hm : m.mtype = "http.response.start"
      · rw [wrapped_send_start b sc m hm, List.filter_cons, if_pos (by simp [hm]),
          List.map_cons]
        simp [storeEvents]
      · rw [wrapped_send_other b sc m hm, List.filter_cons, if_neg (by simp [hm])]
        simp [storeEvents]
  · unfold create_send_wrapper_run
    induction msgs with
    | nil => rfl
    | cons m ms ih =>
      rw [List.map_cons, List.flatten_cons, sentMessages_append, ih]
      by_cases hm : m.mtype = "http.response.start"
      · rw [wrapped_send_start b sc m hm, List.map_cons, if_pos (by simp [hm])]
        simp [sentMessages]
      · rw [wrapped_send_other b sc m hm, List.map_cons, if_neg (by simp [hm])]
        simp [sentMessages]

/-- Witness for C2 (amended): at concrete messages, the response-start
message triggers the backend call before the forward, and a body message
passes through untouched. -/
theorem session_send_wrapper_behavior_witness :
    wrapped_send idBackend emptyScope startMsg =
      [SendEvent.backendStore (some []) startMsg, SendEvent.send startMsg]
    ∧ wrapped_send idBackend emptyScope bodyMsg = [SendEvent.send bodyMsg] :=
  ⟨(session_send_wrapper_behavior idBackend emptyScope []).1 startMsg rfl,
   (session_send_wrapper_behavior idBackend emptyScope []).2.1 bodyMsg (by decide)⟩
